import Mathlib

/-!
Verification of the arrow-adbc Rust driver-manager bridge.

This file gives a shallow embedding of the FFI layer (`src/rust/src/ffi.rs`)
and the capability trait layer (`src/rust/src/interface.rs`) of the
repository, and proves the testable properties stated in its specification.

Machine-level conventions of the embedding:
- raw pointers to arrays are modelled by the contents they point to, as an
  `Option` (`none` models a null pointer);
- `usize` values are modelled by `Nat`, bytes (`u8`) by `Nat`;
- an opaque `*mut c_void` pointer is modelled by a `Nat` address, `0`
  modelling the null pointer;
- C out-parameters (`*mut T` arguments) appear both as an input and in the
  result tuple of the modelled function, so that mutation through them is
  observable.
-/

/-- Modelled from the spec: the fixed status-code enumeration of
`src/rust/src/error.rs`, which is not under `src/`. The spec lists `Ok`
(success), `NotImplemented`, `InvalidState`, `InvalidArgument`, `IO`
(named `Io` here) and `Internal`. -/
inductive AdbcStatusCode where
  | Ok
  | NotImplemented
  | InvalidState
  | InvalidArgument
  | Io
  | Internal
deriving DecidableEq, Repr

/-- Modelled from the spec: the error struct of `src/rust/src/error.rs`,
which is not under `src/`. The spec's data model gives it a human-readable
message and an optional vendor-specific code; the status code itself is the
return value of each operation. -/
structure FFI_AdbcError where
  message : String
  vendor_code : Int
deriving DecidableEq, Repr

/-- Modelled from the spec: `FFI_AdbcError::empty()`, the freshly created
error slot passed to every release call (`src/rust/src/error.rs` is not
under `src/`). -/
def FFI_AdbcError.empty : FFI_AdbcError :=
  { message := "", vendor_code := 0 }

/-- The release callback embedded in `FFI_AdbcPartitions`. In the source it
is a C function pointer; the only value ever stored in the field by this
crate is `drop_adbc_partitions`, so the pointer is embedded deeply as an
enumeration of the possible callees. -/
inductive PartitionsReleaseCallback where
  | dropAdbcPartitions
deriving DecidableEq, Repr

/-- The partitions of a distributed/partitioned result set
(`FFI_AdbcPartitions` in `src/rust/src/ffi.rs`).

`partitions` models the `*mut *const u8` array of buffer-start pointers:
each entry stands for the full allocation the corresponding pointer points
at (after `shrink_to_fit`, capacity equals length, so the allocation is
exactly the buffer's bytes). `partition_lengths` models the `*const usize`
array contents. `private_data` is the opaque marker address (`0` = null). -/
structure FFI_AdbcPartitions where
  num_partitions : Nat
  partitions : Option (List (List Nat))
  partition_lengths : Option (List Nat)
  private_data : Nat
  release : Option PartitionsReleaseCallback
deriving DecidableEq, Repr

/-- Mirrors `FFI_AdbcPartitions::empty()` in `src/rust/src/ffi.rs`. -/
def FFI_AdbcPartitions.empty : FFI_AdbcPartitions :=
  { num_partitions := 0
    partitions := none
    partition_lengths := none
    private_data := 0
    release := none }

/-- Mirrors `impl From<Vec<Vec<u8>>> for FFI_AdbcPartitions` in
`src/rust/src/ffi.rs`: `num_partitions` is the buffer count, the lengths
array holds each buffer's exact length (capacity is trimmed to length by
`shrink_to_fit`, so the pointed-at allocation for buffer `i` is exactly
`value[i]`), `private_data` is the arbitrary non-null sentinel `42`, and
the release callback is bound to `drop_adbc_partitions`. -/
def FFI_AdbcPartitions.fromVecs (value : List (List Nat)) : FFI_AdbcPartitions :=
  { num_partitions := value.length
    partitions := some value
    partition_lengths := some (value.map List.length)
    private_data := 42
    release := some PartitionsReleaseCallback.dropAdbcPartitions }

/-- Mirrors `drop_adbc_partitions` in `src/rust/src/ffi.rs`. The source
first checks that the struct pointer itself is non-null; passing the struct
by value here, that guard is always taken. The body reconstructs, via
`Vec::from_raw_parts`, the lengths array and the pointer array with
`num_partitions` as both length and capacity (modelled by reading
`num_partitions` elements from the pointed-at contents), then reconstructs
each buffer from its (pointer, length) pair (reading `length` bytes from
the pointed-at allocation), and finally nulls `partitions` and
`partition_lengths`, clears `private_data` and clears `release`. The
function returns the cleared struct together with the list of reconstructed
(and then dropped) buffers, so that what was freed is observable. On a
struct whose array pointers are already null the source would have
undefined behaviour; the embedding reads a null array as empty, a state
never reached through `invokeRelease` because releasing clears the
callback. -/
def drop_adbc_partitions (p : FFI_AdbcPartitions) :
    FFI_AdbcPartitions × List (List Nat) :=
  let partition_lengths : List Nat := (p.partition_lengths.getD []).take p.num_partitions
  let partitions_vec : List (List Nat) := (p.partitions.getD []).take p.num_partitions
  let each_partition : List (List Nat) :=
    (partitions_vec.zip partition_lengths).map fun pr => pr.1.take pr.2
  ({ p with
      partitions := none
      partition_lengths := none
      private_data := 0
      release := none },
   each_partition)

/-- The consumer-side release protocol for `FFI_AdbcPartitions`: invoke the
embedded release callback when it is bound, otherwise do nothing. This is
how the crate's own test exercises the struct
(`assert!(partitions.release.is_some())` followed by calling the unwrapped
callback) and how the ADBC convention defines releasing a partitions
value. -/
def FFI_AdbcPartitions.invokeRelease (p : FFI_AdbcPartitions) :
    FFI_AdbcPartitions × List (List Nat) :=
  match p.release with
  | none => (p, [])
  | some PartitionsReleaseCallback.dropAdbcPartitions => drop_adbc_partitions p

lemma zip_lengths_take_eq (v : List (List Nat)) :
    ((v.zip (v.map List.length)).map fun pr => pr.1.take pr.2) = v := by
  induction v with
  | nil => rfl
  | cons b t ih => simp [ih]

lemma fromVecs_drop_eq (v : List (List Nat)) :
    drop_adbc_partitions (FFI_AdbcPartitions.fromVecs v) =
      ({ num_partitions := v.length
         partitions := none
         partition_lengths := none
         private_data := 0
         release := none }, v) := by
  unfold drop_adbc_partitions FFI_AdbcPartitions.fromVecs
  have h : (v.map List.length).length = v.length := v.length_map List.length
  simp only [Option.getD_some]
  rw [← h, List.take_length, h, List.take_length, zip_lengths_take_eq]

/-- Model of a nullable C string argument (`*const c_char`); `none` models
the null pointer, `some s` the pointed-at NUL-terminated string. -/
def CString := Option String

/-- Model of a `*const u8` byte-array argument, read together with a
separately passed length; `none` models the null pointer. -/
def ConstBytes := Option (List Nat)

/-- Model of a `*const u32` array argument; `none` models the null
pointer. -/
def ConstU32Array := Option (List Nat)

/-- Opaque model of the foreign `FFI_ArrowSchema` struct (supplied by the
external arrow crate); only its address identity matters here. -/
structure FFI_ArrowSchema where
  addr : Nat
deriving DecidableEq, Repr

/-- Opaque model of the foreign `FFI_ArrowArray` struct. -/
structure FFI_ArrowArray where
  addr : Nat
deriving DecidableEq, Repr

/-- Opaque model of the foreign `FFI_ArrowArrayStream` struct. -/
structure FFI_ArrowArrayStream where
  addr : Nat
deriving DecidableEq, Repr

/-- Depth parameter for the GetObjects method (`AdbcObjectDepth` in
`src/rust/src/ffi.rs`). -/
inductive AdbcObjectDepth where
  | All
  | Catalogs
  | DBSchemas
  | Tables
deriving DecidableEq, Repr

/-- An instance of a database (`FFI_AdbcDatabase` in `src/rust/src/ffi.rs`):
an opaque state pointer plus a pointer to the associated driver, both
modelled as addresses with `0` for null. -/
structure FFI_AdbcDatabase where
  private_data : Nat
  private_driver : Nat
deriving DecidableEq, Repr

/-- Mirrors `FFI_AdbcDatabase::empty()`: both pointers null. -/
def FFI_AdbcDatabase.empty : FFI_AdbcDatabase :=
  { private_data := 0, private_driver := 0 }

/-- An active database connection (`FFI_AdbcConnection` in
`src/rust/src/ffi.rs`). -/
structure FFI_AdbcConnection where
  private_data : Nat
  private_driver : Nat
deriving DecidableEq, Repr

/-- Mirrors `FFI_AdbcConnection::empty()`: both pointers null. -/
def FFI_AdbcConnection.empty : FFI_AdbcConnection :=
  { private_data := 0, private_driver := 0 }

/-- A container for all state needed to execute a database query
(`FFI_AdbcStatement` in `src/rust/src/ffi.rs`). -/
structure FFI_AdbcStatement where
  private_data : Nat
  private_driver : Nat
deriving DecidableEq, Repr

/-- Mirrors `FFI_AdbcStatement::empty()`: both pointers null. -/
def FFI_AdbcStatement.empty : FFI_AdbcStatement :=
  { private_data := 0, private_driver := 0 }

/-- An instance of an initialized database driver (`FFI_AdbcDriver` in
`src/rust/src/ffi.rs`): one optional function-pointer slot per operation.
Every `*mut` argument of a slot appears both as an input and in the result
tuple, so a slot that mutates through a pointer is observable; the status
code is the first component of the result. The driver's own `release` slot
receives `*mut FFI_AdbcDriver` (the struct itself); that self-pointer is
passed as an opaque address to avoid a recursive structure. -/
structure FFI_AdbcDriver where
  private_data : Nat
  private_manager : Nat
  release : Option (Nat → FFI_AdbcError → AdbcStatusCode × FFI_AdbcError)
  database_init :
    Option (FFI_AdbcDatabase → FFI_AdbcError →
      AdbcStatusCode × FFI_AdbcDatabase × FFI_AdbcError)
  database_new :
    Option (FFI_AdbcDatabase → FFI_AdbcError →
      AdbcStatusCode × FFI_AdbcDatabase × FFI_AdbcError)
  database_set_option :
    Option (FFI_AdbcDatabase → CString → CString → FFI_AdbcError →
      AdbcStatusCode × FFI_AdbcDatabase × FFI_AdbcError)
  database_release :
    Option (FFI_AdbcDatabase → FFI_AdbcError →
      AdbcStatusCode × FFI_AdbcDatabase × FFI_AdbcError)
  connection_commit :
    Option (FFI_AdbcConnection → FFI_AdbcError →
      AdbcStatusCode × FFI_AdbcConnection × FFI_AdbcError)
  connection_get_info :
    Option (FFI_AdbcConnection → ConstU32Array → Nat → FFI_ArrowArrayStream →
      FFI_AdbcError →
      AdbcStatusCode × FFI_AdbcConnection × FFI_ArrowArrayStream × FFI_AdbcError)
  connection_get_objects :
    Option (FFI_AdbcConnection → AdbcObjectDepth → CString → CString → CString →
      Option (List CString) → CString → FFI_ArrowArrayStream → FFI_AdbcError →
      AdbcStatusCode × FFI_AdbcConnection × FFI_ArrowArrayStream × FFI_AdbcError)
  connection_get_table_schema :
    Option (FFI_AdbcConnection → CString → CString → CString → FFI_ArrowSchema →
      FFI_AdbcError →
      AdbcStatusCode × FFI_AdbcConnection × FFI_ArrowSchema × FFI_AdbcError)
  connection_get_table_types :
    Option (FFI_AdbcConnection → FFI_ArrowArrayStream → FFI_AdbcError →
      AdbcStatusCode × FFI_AdbcConnection × FFI_ArrowArrayStream × FFI_AdbcError)
  connection_init :
    Option (FFI_AdbcConnection → FFI_AdbcDatabase → FFI_AdbcError →
      AdbcStatusCode × FFI_AdbcConnection × FFI_AdbcDatabase × FFI_AdbcError)
  connection_new :
    Option (FFI_AdbcConnection → FFI_AdbcError →
      AdbcStatusCode × FFI_AdbcConnection × FFI_AdbcError)
  connection_set_option :
    Option (FFI_AdbcConnection → CString → CString → FFI_AdbcError →
      AdbcStatusCode × FFI_AdbcConnection × FFI_AdbcError)
  connection_read_partition :
    Option (FFI_AdbcConnection → ConstBytes → Nat → FFI_ArrowArrayStream →
      FFI_AdbcError →
      AdbcStatusCode × FFI_AdbcConnection × FFI_ArrowArrayStream × FFI_AdbcError)
  connection_release :
    Option (FFI_AdbcConnection → FFI_AdbcError →
      AdbcStatusCode × FFI_AdbcConnection × FFI_AdbcError)
  connection_rollback :
    Option (FFI_AdbcConnection → FFI_AdbcError →
      AdbcStatusCode × FFI_AdbcConnection × FFI_AdbcError)
  statement_bind :
    Option (FFI_AdbcStatement → FFI_ArrowArray → FFI_ArrowSchema → FFI_AdbcError →
      AdbcStatusCode × FFI_AdbcStatement × FFI_ArrowArray × FFI_ArrowSchema ×
        FFI_AdbcError)
  statement_bind_stream :
    Option (FFI_AdbcStatement → FFI_ArrowArrayStream → FFI_AdbcError →
      AdbcStatusCode × FFI_AdbcStatement × FFI_ArrowArrayStream × FFI_AdbcError)
  statement_execute_query :
    Option (FFI_AdbcStatement → FFI_ArrowArrayStream → Int → FFI_AdbcError →
      AdbcStatusCode × FFI_AdbcStatement × FFI_ArrowArrayStream × Int ×
        FFI_AdbcError)
  statement_execute_partitions :
    Option (FFI_AdbcStatement → FFI_ArrowSchema → FFI_AdbcPartitions → Int →
      FFI_AdbcError →
      AdbcStatusCode × FFI_AdbcStatement × FFI_ArrowSchema × FFI_AdbcPartitions ×
        Int × FFI_AdbcError)
  statement_get_parameter_schema :
    Option (FFI_AdbcStatement → FFI_ArrowSchema → FFI_AdbcError →
      AdbcStatusCode × FFI_AdbcStatement × FFI_ArrowSchema × FFI_AdbcError)
  statement_new :
    Option (FFI_AdbcConnection → FFI_AdbcStatement → FFI_AdbcError →
      AdbcStatusCode × FFI_AdbcConnection × FFI_AdbcStatement × FFI_AdbcError)
  statement_prepare :
    Option (FFI_AdbcStatement → FFI_AdbcError →
      AdbcStatusCode × FFI_AdbcStatement × FFI_AdbcError)
  statement_release :
    Option (FFI_AdbcStatement → FFI_AdbcError →
      AdbcStatusCode × FFI_AdbcStatement × FFI_AdbcError)
  statement_set_option :
    Option (FFI_AdbcStatement → CString → CString → FFI_AdbcError →
      AdbcStatusCode × FFI_AdbcStatement × FFI_AdbcError)
  statement_set_sql_query :
    Option (FFI_AdbcStatement → CString → FFI_AdbcError →
      AdbcStatusCode × FFI_AdbcStatement × FFI_AdbcError)
  statement_set_substrait_plan :
    Option (FFI_AdbcStatement → ConstBytes → Nat → FFI_AdbcError →
      AdbcStatusCode × FFI_AdbcStatement × FFI_AdbcError)

namespace driver_function_stubs

/-- Stub for the `database_init` slot: ignores its arguments, mutates
nothing and reports `NotImplemented` (mirrors
`driver_function_stubs::database_init` in `src/rust/src/ffi.rs`; all the
stubs below mirror the function of the same name there). -/
def database_init (a1 : FFI_AdbcDatabase) (a2 : FFI_AdbcError) :
    AdbcStatusCode × FFI_AdbcDatabase × FFI_AdbcError :=
  (AdbcStatusCode.NotImplemented, a1, a2)

/-- Stub for the `database_new` slot. -/
def database_new (a1 : FFI_AdbcDatabase) (a2 : FFI_AdbcError) :
    AdbcStatusCode × FFI_AdbcDatabase × FFI_AdbcError :=
  (AdbcStatusCode.NotImplemented, a1, a2)

/-- Stub for the `database_set_option` slot. -/
def database_set_option (a1 : FFI_AdbcDatabase) (_a2 _a3 : CString)
    (a4 : FFI_AdbcError) : AdbcStatusCode × FFI_AdbcDatabase × FFI_AdbcError :=
  (AdbcStatusCode.NotImplemented, a1, a4)

/-- Stub for the `database_release` slot. -/
def database_release (a1 : FFI_AdbcDatabase) (a2 : FFI_AdbcError) :
    AdbcStatusCode × FFI_AdbcDatabase × FFI_AdbcError :=
  (AdbcStatusCode.NotImplemented, a1, a2)

/-- Stub for the `connection_commit` slot. -/
def connection_commit (a1 : FFI_AdbcConnection) (a2 : FFI_AdbcError) :
    AdbcStatusCode × FFI_AdbcConnection × FFI_AdbcError :=
  (AdbcStatusCode.NotImplemented, a1, a2)

/-- Stub for the `connection_get_info` slot. -/
def connection_get_info (a1 : FFI_AdbcConnection) (_a2 : ConstU32Array)
    (_a3 : Nat) (a4 : FFI_ArrowArrayStream) (a5 : FFI_AdbcError) :
    AdbcStatusCode × FFI_AdbcConnection × FFI_ArrowArrayStream × FFI_AdbcError :=
  (AdbcStatusCode.NotImplemented, a1, a4, a5)

/-- Stub for the `connection_get_objects` slot. -/
def connection_get_objects (a1 : FFI_AdbcConnection) (_a2 : AdbcObjectDepth)
    (_a3 _a4 _a5 : CString) (_a6 : Option (List CString)) (_a7 : CString)
    (a8 : FFI_ArrowArrayStream) (a9 : FFI_AdbcError) :
    AdbcStatusCode × FFI_AdbcConnection × FFI_ArrowArrayStream × FFI_AdbcError :=
  (AdbcStatusCode.NotImplemented, a1, a8, a9)

/-- Stub for the `connection_get_table_schema` slot. -/
def connection_get_table_schema (a1 : FFI_AdbcConnection) (_a2 _a3 _a4 : CString)
    (a5 : FFI_ArrowSchema) (a6 : FFI_AdbcError) :
    AdbcStatusCode × FFI_AdbcConnection × FFI_ArrowSchema × FFI_AdbcError :=
  (AdbcStatusCode.NotImplemented, a1, a5, a6)

/-- Stub for the `connection_get_table_types` slot. -/
def connection_get_table_types (a1 : FFI_AdbcConnection)
    (a2 : FFI_ArrowArrayStream) (a3 : FFI_AdbcError) :
    AdbcStatusCode × FFI_AdbcConnection × FFI_ArrowArrayStream × FFI_AdbcError :=
  (AdbcStatusCode.NotImplemented, a1, a2, a3)

/-- Stub for the `connection_init` slot. -/
def connection_init (a1 : FFI_AdbcConnection) (a2 : FFI_AdbcDatabase)
    (a3 : FFI_AdbcError) :
    AdbcStatusCode × FFI_AdbcConnection × FFI_AdbcDatabase × FFI_AdbcError :=
  (AdbcStatusCode.NotImplemented, a1, a2, a3)

/-- Stub for the `connection_new` slot. -/
def connection_new (a1 : FFI_AdbcConnection) (a2 : FFI_AdbcError) :
    AdbcStatusCode × FFI_AdbcConnection × FFI_AdbcError :=
  (AdbcStatusCode.NotImplemented, a1, a2)

/-- Stub for the `connection_set_option` slot. -/
def connection_set_option (a1 : FFI_AdbcConnection) (_a2 _a3 : CString)
    (a4 : FFI_AdbcError) : AdbcStatusCode × FFI_AdbcConnection × FFI_AdbcError :=
  (AdbcStatusCode.NotImplemented, a1, a4)

/-- Stub for the `connection_read_partition` slot. -/
def connection_read_partition (a1 : FFI_AdbcConnection) (_a2 : ConstBytes)
    (_a3 : Nat) (a4 : FFI_ArrowArrayStream) (a5 : FFI_AdbcError) :
    AdbcStatusCode × FFI_AdbcConnection × FFI_ArrowArrayStream × FFI_AdbcError :=
  (AdbcStatusCode.NotImplemented, a1, a4, a5)

/-- Stub for the `connection_release` slot. -/
def connection_release (a1 : FFI_AdbcConnection) (a2 : FFI_AdbcError) :
    AdbcStatusCode × FFI_AdbcConnection × FFI_AdbcError :=
  (AdbcStatusCode.NotImplemented, a1, a2)

/-- Stub for the `connection_rollback` slot. -/
def connection_rollback (a1 : FFI_AdbcConnection) (a2 : FFI_AdbcError) :
    AdbcStatusCode × FFI_AdbcConnection × FFI_AdbcError :=
  (AdbcStatusCode.NotImplemented, a1, a2)

/-- Stub for the `statement_bind` slot. -/
def statement_bind (a1 : FFI_AdbcStatement) (a2 : FFI_ArrowArray)
    (a3 : FFI_ArrowSchema) (a4 : FFI_AdbcError) :
    AdbcStatusCode × FFI_AdbcStatement × FFI_ArrowArray × FFI_ArrowSchema ×
      FFI_AdbcError :=
  (AdbcStatusCode.NotImplemented, a1, a2, a3, a4)

/-- Stub for the `statement_bind_stream` slot. -/
def statement_bind_stream (a1 : FFI_AdbcStatement) (a2 : FFI_ArrowArrayStream)
    (a3 : FFI_AdbcError) :
    AdbcStatusCode × FFI_AdbcStatement × FFI_ArrowArrayStream × FFI_AdbcError :=
  (AdbcStatusCode.NotImplemented, a1, a2, a3)

/-- Stub for the `statement_execute_query` slot. -/
def statement_execute_query (a1 : FFI_AdbcStatement) (a2 : FFI_ArrowArrayStream)
    (a3 : Int) (a4 : FFI_AdbcError) :
    AdbcStatusCode × FFI_AdbcStatement × FFI_ArrowArrayStream × Int ×
      FFI_AdbcError :=
  (AdbcStatusCode.NotImplemented, a1, a2, a3, a4)

/-- Stub for the `statement_execute_partitions` slot. -/
def statement_execute_partitions (a1 : FFI_AdbcStatement) (a2 : FFI_ArrowSchema)
    (a3 : FFI_AdbcPartitions) (a4 : Int) (a5 : FFI_AdbcError) :
    AdbcStatusCode × FFI_AdbcStatement × FFI_ArrowSchema × FFI_AdbcPartitions ×
      Int × FFI_AdbcError :=
  (AdbcStatusCode.NotImplemented, a1, a2, a3, a4, a5)

/-- Stub for the `statement_get_parameter_schema` slot. -/
def statement_get_parameter_schema (a1 : FFI_AdbcStatement)
    (a2 : FFI_ArrowSchema) (a3 : FFI_AdbcError) :
    AdbcStatusCode × FFI_AdbcStatement × FFI_ArrowSchema × FFI_AdbcError :=
  (AdbcStatusCode.NotImplemented, a1, a2, a3)

/-- Stub for the `statement_new` slot. -/
def statement_new (a1 : FFI_AdbcConnection) (a2 : FFI_AdbcStatement)
    (a3 : FFI_AdbcError) :
    AdbcStatusCode × FFI_AdbcConnection × FFI_AdbcStatement × FFI_AdbcError :=
  (AdbcStatusCode.NotImplemented, a1, a2, a3)

/-- Stub for the `statement_prepare` slot. -/
def statement_prepare (a1 : FFI_AdbcStatement) (a2 : FFI_AdbcError) :
    AdbcStatusCode × FFI_AdbcStatement × FFI_AdbcError :=
  (AdbcStatusCode.NotImplemented, a1, a2)

/-- Stub for the `statement_release` slot. -/
def statement_release (a1 : FFI_AdbcStatement) (a2 : FFI_AdbcError) :
    AdbcStatusCode × FFI_AdbcStatement × FFI_AdbcError :=
  (AdbcStatusCode.NotImplemented, a1, a2)

/-- Stub for the `statement_set_option` slot. -/
def statement_set_option (a1 : FFI_AdbcStatement) (_a2 _a3 : CString)
    (a4 : FFI_AdbcError) : AdbcStatusCode × FFI_AdbcStatement × FFI_AdbcError :=
  (AdbcStatusCode.NotImplemented, a1, a4)

/-- Stub for the `statement_set_sql_query` slot. -/
def statement_set_sql_query (a1 : FFI_AdbcStatement) (_a2 : CString)
    (a3 : FFI_AdbcError) : AdbcStatusCode × FFI_AdbcStatement × FFI_AdbcError :=
  (AdbcStatusCode.NotImplemented, a1, a3)

/-- Stub for the `statement_set_substrait_plan` slot. -/
def statement_set_substrait_plan (a1 : FFI_AdbcStatement) (_a2 : ConstBytes)
    (_a3 : Nat) (a4 : FFI_AdbcError) :
    AdbcStatusCode × FFI_AdbcStatement × FFI_AdbcError :=
  (AdbcStatusCode.NotImplemented, a1, a4)

end driver_function_stubs

/-- Mirrors `FFI_AdbcDriver::empty()` in `src/rust/src/ffi.rs` (via the
`empty_driver!` macro): `private_data` and `private_manager` null, the
driver's own `release` slot `None`, and every operation slot bound to the
stub of the same name in `driver_function_stubs`. -/
def FFI_AdbcDriver.empty : FFI_AdbcDriver :=
  { private_data := 0
    private_manager := 0
    release := none
    database_init := some driver_function_stubs.database_init
    database_new := some driver_function_stubs.database_new
    database_set_option := some driver_function_stubs.database_set_option
    database_release := some driver_function_stubs.database_release
    connection_commit := some driver_function_stubs.connection_commit
    connection_get_info := some driver_function_stubs.connection_get_info
    connection_get_objects := some driver_function_stubs.connection_get_objects
    connection_get_table_schema := some driver_function_stubs.connection_get_table_schema
    connection_get_table_types := some driver_function_stubs.connection_get_table_types
    connection_init := some driver_function_stubs.connection_init
    connection_new := some driver_function_stubs.connection_new
    connection_set_option := some driver_function_stubs.connection_set_option
    connection_read_partition := some driver_function_stubs.connection_read_partition
    connection_release := some driver_function_stubs.connection_release
    connection_rollback := some driver_function_stubs.connection_rollback
    statement_bind := some driver_function_stubs.statement_bind
    statement_bind_stream := some driver_function_stubs.statement_bind_stream
    statement_execute_query := some driver_function_stubs.statement_execute_query
    statement_execute_partitions := some driver_function_stubs.statement_execute_partitions
    statement_get_parameter_schema := some driver_function_stubs.statement_get_parameter_schema
    statement_new := some driver_function_stubs.statement_new
    statement_prepare := some driver_function_stubs.statement_prepare
    statement_release := some driver_function_stubs.statement_release
    statement_set_option := some driver_function_stubs.statement_set_option
    statement_set_sql_query := some driver_function_stubs.statement_set_sql_query
    statement_set_substrait_plan := some driver_function_stubs.statement_set_substrait_plan }

/-- Outcome of a handle's teardown (`Drop` impl): how many times the
matching release slot was invoked, the status it returned (when a call was
made), and whether the teardown panicked (the source's `panic!` on a
non-`Ok` status, which aborts the process). -/
structure DropResult where
  calls : Nat
  status : Option AdbcStatusCode
  panicked : Bool
deriving DecidableEq, Repr

/-- Mirrors `impl Drop for FFI_AdbcDatabase` in `src/rust/src/ffi.rs`.
The `private_driver` parameter is the dereference of the handle's
`private_driver` pointer (`none` models a null pointer, matching the
source's `self.private_driver.as_ref()` check). When the driver is present
and its `database_release` slot is set, the slot is called exactly once
with the handle and a freshly created error slot (`FFI_AdbcError::empty()`),
and a non-`Ok` status panics. -/
def FFI_AdbcDatabase.drop (self : FFI_AdbcDatabase)
    (private_driver : Option FFI_AdbcDriver) : DropResult :=
  match private_driver with
  | none => { calls := 0, status := none, panicked := false }
  | some d =>
    match d.database_release with
    | none => { calls := 0, status := none, panicked := false }
    | some release =>
      let error := FFI_AdbcError.empty
      let status := (release self error).1
      { calls := 1, status := some status,
        panicked := decide (status ≠ AdbcStatusCode.Ok) }

/-- Mirrors `impl Drop for FFI_AdbcConnection` in `src/rust/src/ffi.rs`. -/
def FFI_AdbcConnection.drop (self : FFI_AdbcConnection)
    (private_driver : Option FFI_AdbcDriver) : DropResult :=
  match private_driver with
  | none => { calls := 0, status := none, panicked := false }
  | some d =>
    match d.connection_release with
    | none => { calls := 0, status := none, panicked := false }
    | some release =>
      let error := FFI_AdbcError.empty
      let status := (release self error).1
      { calls := 1, status := some status,
        panicked := decide (status ≠ AdbcStatusCode.Ok) }

/-- Mirrors `impl Drop for FFI_AdbcStatement` in `src/rust/src/ffi.rs`. -/
def FFI_AdbcStatement.drop (self : FFI_AdbcStatement)
    (private_driver : Option FFI_AdbcDriver) : DropResult :=
  match private_driver with
  | none => { calls := 0, status := none, panicked := false }
  | some d =>
    match d.statement_release with
    | none => { calls := 0, status := none, panicked := false }
    | some release =>
      let error := FFI_AdbcError.empty
      let status := (release self error).1
      { calls := 1, status := some status,
        panicked := decide (status ≠ AdbcStatusCode.Ok) }

/-- Mirrors `impl Drop for FFI_AdbcDriver` in `src/rust/src/ffi.rs`: the
driver checks its own `release` slot; when set, it is called exactly once
with a pointer to the driver itself (passed as the opaque address
`selfPtr`) and a freshly created error slot, and a non-`Ok` status
panics. -/
def FFI_AdbcDriver.drop (self : FFI_AdbcDriver) (selfPtr : Nat) : DropResult :=
  match self.release with
  | none => { calls := 0, status := none, panicked := false }
  | some release =>
    let error := FFI_AdbcError.empty
    let status := (release selfPtr error).1
    { calls := 1, status := some status,
      panicked := decide (status ≠ AdbcStatusCode.Ok) }

/-- Opaque model of the `arrow::datatypes::Schema` type used by the
capability trait layer (an external collaborator); only identity matters. -/
structure ArrowSchema where
  tag : Nat
deriving DecidableEq, Repr

/-- Result of `StatementApi::execute` (`StatementResult` in
`src/rust/src/interface.rs`): `result` is an optional result row-stream
(the stream itself is opaque, modelled by an address) and `rows_affected`
may be `-1` when not applicable or not supported. -/
structure StatementResult where
  result : Option Nat
  rows_affected : Int
deriving DecidableEq, Repr

/-- Modelled from the spec: the mutually exclusive query specifications a
statement can carry, set by `set_sql_query` / `set_substrait_plan`
(`StatementApi` in `src/rust/src/interface.rs` only declares the trait; no
implementation is under `src/`). -/
inductive QuerySpec where
  | sql (query : String)
  | substrait (plan : List Nat)
deriving DecidableEq, Repr

/-- Modelled from the spec: the statement lifecycle states
`Unprepared → QueryConfigured → Prepared` of spec section 4.4. -/
inductive StatementState where
  | Unprepared
  | QueryConfigured
  | Prepared
deriving DecidableEq, Repr

/-- Modelled from the spec: the observable state of a `StatementApi`
implementation. No implementation of the trait is under `src/`, so the
driver-defined outcomes are abstracted: `paramSchema` is the parameter
schema the driver would report for the prepared statement, and
`execResult` the result the driver would produce on execution. -/
structure SpecStatement where
  state : StatementState
  query : Option QuerySpec
  paramSchema : ArrowSchema
  execResult : StatementResult
deriving DecidableEq, Repr

/-- Modelled from the spec: `set_sql_query` sets the SQL query
specification and transitions into `QueryConfigured`; the later call wins
and discards a former specification, and re-issuing the query specification
resets to `QueryConfigured`, invalidating a prior preparation. -/
def SpecStatement.set_sql_query (s : SpecStatement) (query : String) :
    SpecStatement :=
  { s with state := StatementState.QueryConfigured
           query := some (QuerySpec.sql query) }

/-- Modelled from the spec: `set_substrait_plan`, the other query
specification, with the same transition into `QueryConfigured`. -/
def SpecStatement.set_substrait_plan (s : SpecStatement) (plan : List Nat) :
    SpecStatement :=
  { s with state := StatementState.QueryConfigured
           query := some (QuerySpec.substrait plan) }

/-- Modelled from the spec: `prepare()` transitions
`QueryConfigured → Prepared` and fails with `InvalidState` if called before
a query is configured. -/
def SpecStatement.prepare (s : SpecStatement) :
    Except AdbcStatusCode SpecStatement :=
  match s.state with
  | StatementState.Unprepared => Except.error AdbcStatusCode.InvalidState
  | _ => Except.ok { s with state := StatementState.Prepared }

/-- Modelled from the spec: `get_param_schema()` requires the `Prepared`
state, failing with `InvalidState` otherwise, and returns the driver's
ordered parameter field descriptions. -/
def SpecStatement.get_param_schema (s : SpecStatement) :
    Except AdbcStatusCode ArrowSchema :=
  match s.state with
  | StatementState.Prepared => Except.ok s.paramSchema
  | _ => Except.error AdbcStatusCode.InvalidState

/-- Modelled from the spec: `execute()` is valid without requiring
`prepare()` first — it needs only a configured query specification — and
returns an optional result row-stream plus a rows-affected count. -/
def SpecStatement.execute (s : SpecStatement) :
    Except AdbcStatusCode StatementResult :=
  match s.query with
  | none => Except.error AdbcStatusCode.InvalidState
  | some _ => Except.ok s.execResult

/-- Modelled from the spec: `execute_update()` is the no-result-stream
variant of `execute()`, returning only the affected-row count. -/
def SpecStatement.execute_update (s : SpecStatement) :
    Except AdbcStatusCode Int :=
  (s.execute).map (fun r => r.rows_affected)

lemma fromVecs_invokeRelease_eq (v : List (List Nat)) :
    (FFI_AdbcPartitions.fromVecs v).invokeRelease =
      ({ num_partitions := v.length
         partitions := none
         partition_lengths := none
         private_data := 0
         release := none }, v) :=
  fromVecs_drop_eq v

/-- C1: converting any finite collection of byte buffers (including the
empty collection and zero-length buffers) into an `FFI_AdbcPartitions`
value and then invoking its embedded release callback reconstructs exactly
the original buffers, byte-for-byte and in order, and afterwards the
`partitions` and `partition_lengths` pointers and the `private_data` marker
are null and the release callback is cleared; in particular encoding
`[[], [0,1,2,3], [4,5,6]]` exposes buffer lengths `[0, 4, 3]` and releasing
yields back exactly those bytes. -/
theorem partitions_encode_release_roundtrip :
    (∀ v : List (List Nat),
      (FFI_AdbcPartitions.fromVecs v).invokeRelease =
        ({ num_partitions := v.length
           partitions := none
           partition_lengths := none
           private_data := 0
           release := none }, v)) ∧
    (FFI_AdbcPartitions.fromVecs [[], [0, 1, 2, 3], [4, 5, 6]]).partition_lengths
      = some [0, 4, 3] ∧
    ((FFI_AdbcPartitions.fromVecs [[], [0, 1, 2, 3], [4, 5, 6]]).invokeRelease).2
      = [[], [0, 1, 2, 3], [4, 5, 6]] :=
  ⟨fun v => fromVecs_invokeRelease_eq v, rfl, rfl⟩

/-- C2: invoking the release operation on an `FFI_AdbcPartitions` value
that has already been released (pointer fields nulled, marker and callback
cleared) is a no-op: no buffer is freed a second time and the value is left
unchanged. The second conjunct exhibits this on the state actually produced
by releasing an encoded value. -/
theorem partitions_release_already_released_noop (p : FFI_AdbcPartitions)
    (v : List (List Nat)) (hpart : p.partitions = none)
    (hlen : p.partition_lengths = none) (hpriv : p.private_data = 0)
    (hrel : p.release = none) :
    p.invokeRelease = (p, []) ∧
    ((FFI_AdbcPartitions.fromVecs v).invokeRelease.1).invokeRelease
      = ((FFI_AdbcPartitions.fromVecs v).invokeRelease.1, []) := by
  constructor
  · unfold FFI_AdbcPartitions.invokeRelease
    rw [hrel]
  · rw [fromVecs_invokeRelease_eq]
    rfl

/-- Witness for C2 at a concrete already-released value: the all-null
`FFI_AdbcPartitions::empty()` value, and the value left behind by releasing
the encoding of `[[2, 3]]`. -/
theorem partitions_release_already_released_noop_witness :
    FFI_AdbcPartitions.empty.invokeRelease = (FFI_AdbcPartitions.empty, []) ∧
    ((FFI_AdbcPartitions.fromVecs [[2, 3]]).invokeRelease.1).invokeRelease
      = ((FFI_AdbcPartitions.fromVecs [[2, 3]]).invokeRelease.1, []) :=
  partitions_release_already_released_noop FFI_AdbcPartitions.empty [[2, 3]]
    rfl rfl rfl rfl

/-- C5: encoding a collection of N byte buffers produces a value whose
`num_partitions` equals N, whose lengths array records the exact length of
each buffer in order, whose buffer-pointer array exposes exactly the
original bytes, whose `private_data` marker is non-null and whose release
callback is bound. -/
theorem partitions_encoding_fields (v : List (List Nat)) :
    (FFI_AdbcPartitions.fromVecs v).num_partitions = v.length ∧
    (FFI_AdbcPartitions.fromVecs v).partition_lengths = some (v.map List.length) ∧
    (FFI_AdbcPartitions.fromVecs v).partitions = some v ∧
    (FFI_AdbcPartitions.fromVecs v).private_data ≠ 0 ∧
    (FFI_AdbcPartitions.fromVecs v).release.isSome = true :=
  ⟨rfl, rfl, rfl, by simp [FFI_AdbcPartitions.fromVecs], rfl⟩

/-- C10: the release operation never modifies `num_partitions`: both the
raw callback and the guarded release protocol preserve it on every input,
and after releasing an encoded value the struct still reports the original
partition count even though both array pointers, the marker and the
callback have been cleared. -/
theorem partitions_release_preserves_count (p : FFI_AdbcPartitions)
    (v : List (List Nat)) :
    ((drop_adbc_partitions p).1).num_partitions = p.num_partitions ∧
    (p.invokeRelease.1).num_partitions = p.num_partitions ∧
    (((FFI_AdbcPartitions.fromVecs v).invokeRelease).1).num_partitions = v.length ∧
    ((FFI_AdbcPartitions.fromVecs v).invokeRelease).1.partitions = none ∧
    ((FFI_AdbcPartitions.fromVecs v).invokeRelease).1.partition_lengths = none ∧
    ((FFI_AdbcPartitions.fromVecs v).invokeRelease).1.private_data = 0 ∧
    ((FFI_AdbcPartitions.fromVecs v).invokeRelease).1.release = none := by
  refine ⟨rfl, ?_, ?_, ?_, ?_, ?_, ?_⟩
  · unfold FFI_AdbcPartitions.invokeRelease
    cases hrel : p.release with
    | none => rfl
    | some c => cases c; rfl
  all_goals rw [fromVecs_invokeRelease_eq]

/-- C3: in the driver table built by `FFI_AdbcDriver::empty()`, every
database, connection and statement operation slot is populated with the
stub of the same name, and invoking any of these stubs returns
`NotImplemented` while leaving every handle, out-parameter and the error
slot it was passed unchanged (the stubs never receive the table, so the
table cannot be mutated either). -/
theorem empty_driver_stubs_not_implemented
    (db : FFI_AdbcDatabase) (conn : FFI_AdbcConnection) (stmt : FFI_AdbcStatement)
    (err : FFI_AdbcError) (k v cat sch tbl col : CString)
    (strs : Option (List CString)) (depth : AdbcObjectDepth)
    (stream : FFI_ArrowArrayStream) (schema : FFI_ArrowSchema)
    (array : FFI_ArrowArray) (parts : FFI_AdbcPartitions) (n : Nat)
    (rows : Int) (bytes : ConstBytes) (codes : ConstU32Array) :
    (FFI_AdbcDriver.empty.database_init = some driver_function_stubs.database_init ∧
     driver_function_stubs.database_init db err
       = (AdbcStatusCode.NotImplemented, db, err)) ∧
    (FFI_AdbcDriver.empty.database_new = some driver_function_stubs.database_new ∧
     driver_function_stubs.database_new db err
       = (AdbcStatusCode.NotImplemented, db, err)) ∧
    (FFI_AdbcDriver.empty.database_set_option
       = some driver_function_stubs.database_set_option ∧
     driver_function_stubs.database_set_option db k v err
       = (AdbcStatusCode.NotImplemented, db, err)) ∧
    (FFI_AdbcDriver.empty.database_release
       = some driver_function_stubs.database_release ∧
     driver_function_stubs.database_release db err
       = (AdbcStatusCode.NotImplemented, db, err)) ∧
    (FFI_AdbcDriver.empty.connection_commit
       = some driver_function_stubs.connection_commit ∧
     driver_function_stubs.connection_commit conn err
       = (AdbcStatusCode.NotImplemented, conn, err)) ∧
    (FFI_AdbcDriver.empty.connection_get_info
       = some driver_function_stubs.connection_get_info ∧
     driver_function_stubs.connection_get_info conn codes n stream err
       = (AdbcStatusCode.NotImplemented, conn, stream, err)) ∧
    (FFI_AdbcDriver.empty.connection_get_objects
       = some driver_function_stubs.connection_get_objects ∧
     driver_function_stubs.connection_get_objects conn depth cat sch tbl strs col
         stream err
       = (AdbcStatusCode.NotImplemented, conn, stream, err)) ∧
    (FFI_AdbcDriver.empty.connection_get_table_schema
       = some driver_function_stubs.connection_get_table_schema ∧
     driver_function_stubs.connection_get_table_schema conn cat sch tbl schema err
       = (AdbcStatusCode.NotImplemented, conn, schema, err)) ∧
    (FFI_AdbcDriver.empty.connection_get_table_types
       = some driver_function_stubs.connection_get_table_types ∧
     driver_function_stubs.connection_get_table_types conn stream err
       = (AdbcStatusCode.NotImplemented, conn, stream, err)) ∧
    (FFI_AdbcDriver.empty.connection_init = some driver_function_stubs.connection_init ∧
     driver_function_stubs.connection_init conn db err
       = (AdbcStatusCode.NotImplemented, conn, db, err)) ∧
    (FFI_AdbcDriver.empty.connection_new = some driver_function_stubs.connection_new ∧
     driver_function_stubs.connection_new conn err
       = (AdbcStatusCode.NotImplemented, conn, err)) ∧
    (FFI_AdbcDriver.empty.connection_set_option
       = some driver_function_stubs.connection_set_option ∧
     driver_function_stubs.connection_set_option conn k v err
       = (AdbcStatusCode.NotImplemented, conn, err)) ∧
    (FFI_AdbcDriver.empty.connection_read_partition
       = some driver_function_stubs.connection_read_partition ∧
     driver_function_stubs.connection_read_partition conn bytes n stream err
       = (AdbcStatusCode.NotImplemented, conn, stream, err)) ∧
    (FFI_AdbcDriver.empty.connection_release
       = some driver_function_stubs.connection_release ∧
     driver_function_stubs.connection_release conn err
       = (AdbcStatusCode.NotImplemented, conn, err)) ∧
    (FFI_AdbcDriver.empty.connection_rollback
       = some driver_function_stubs.connection_rollback ∧
     driver_function_stubs.connection_rollback conn err
       = (AdbcStatusCode.NotImplemented, conn, err)) ∧
    (FFI_AdbcDriver.empty.statement_bind = some driver_function_stubs.statement_bind ∧
     driver_function_stubs.statement_bind stmt array schema err
       = (AdbcStatusCode.NotImplemented, stmt, array, schema, err)) ∧
    (FFI_AdbcDriver.empty.statement_bind_stream
       = some driver_function_stubs.statement_bind_stream ∧
     driver_function_stubs.statement_bind_stream stmt stream err
       = (AdbcStatusCode.NotImplemented, stmt, stream, err)) ∧
    (FFI_AdbcDriver.empty.statement_execute_query
       = some driver_function_stubs.statement_execute_query ∧
     driver_function_stubs.statement_execute_query stmt stream rows err
       = (AdbcStatusCode.NotImplemented, stmt, stream, rows, err)) ∧
    (FFI_AdbcDriver.empty.statement_execute_partitions
       = some driver_function_stubs.statement_execute_partitions ∧
     driver_function_stubs.statement_execute_partitions stmt schema parts rows err
       = (AdbcStatusCode.NotImplemented, stmt, schema, parts, rows, err)) ∧
    (FFI_AdbcDriver.empty.statement_get_parameter_schema
       = some driver_function_stubs.statement_get_parameter_schema ∧
     driver_function_stubs.statement_get_parameter_schema stmt schema err
       = (AdbcStatusCode.NotImplemented, stmt, schema, err)) ∧
    (FFI_AdbcDriver.empty.statement_new = some driver_function_stubs.statement_new ∧
     driver_function_stubs.statement_new conn stmt err
       = (AdbcStatusCode.NotImplemented, conn, stmt, err)) ∧
    (FFI_AdbcDriver.empty.statement_prepare
       = some driver_function_stubs.statement_prepare ∧
     driver_function_stubs.statement_prepare stmt err
       = (AdbcStatusCode.NotImplemented, stmt, err)) ∧
    (FFI_AdbcDriver.empty.statement_release
       = some driver_function_stubs.statement_release ∧
     driver_function_stubs.statement_release stmt err
       = (AdbcStatusCode.NotImplemented, stmt, err)) ∧
    (FFI_AdbcDriver.empty.statement_set_option
       = some driver_function_stubs.statement_set_option ∧
     driver_function_stubs.statement_set_option stmt k v err
       = (AdbcStatusCode.NotImplemented, stmt, err)) ∧
    (FFI_AdbcDriver.empty.statement_set_sql_query
       = some driver_function_stubs.statement_set_sql_query ∧
     driver_function_stubs.statement_set_sql_query stmt k err
       = (AdbcStatusCode.NotImplemented, stmt, err)) ∧
    (FFI_AdbcDriver.empty.statement_set_substrait_plan
       = some driver_function_stubs.statement_set_substrait_plan ∧
     driver_function_stubs.statement_set_substrait_plan stmt bytes n err
       = (AdbcStatusCode.NotImplemented, stmt, err)) := by
  refine ⟨?_, ?_, ?_, ?_, ?_, ?_, ?_, ?_, ?_, ?_, ?_, ?_, ?_, ?_, ?_, ?_, ?_,
    ?_, ?_, ?_, ?_, ?_, ?_, ?_, ?_, ?_⟩ <;> exact ⟨rfl, rfl⟩

/-- C9: dropping any Database, Connection or Statement handle whose
`private_driver` points to the fully-stubbed table of
`FFI_AdbcDriver::empty()` panics: the stubbed release slot is invoked once,
returns `NotImplemented`, and the teardown path treats that non-`Ok` status
as fatal. -/
theorem drop_with_stubbed_driver_panics (db : FFI_AdbcDatabase)
    (conn : FFI_AdbcConnection) (stmt : FFI_AdbcStatement) :
    FFI_AdbcDatabase.drop db (some FFI_AdbcDriver.empty)
      = { calls := 1, status := some AdbcStatusCode.NotImplemented,
          panicked := true } ∧
    FFI_AdbcConnection.drop conn (some FFI_AdbcDriver.empty)
      = { calls := 1, status := some AdbcStatusCode.NotImplemented,
          panicked := true } ∧
    FFI_AdbcStatement.drop stmt (some FFI_AdbcDriver.empty)
      = { calls := 1, status := some AdbcStatusCode.NotImplemented,
          panicked := true } :=
  ⟨rfl, rfl, rfl⟩

/-- Counterexample to C4 as stated: a Database handle whose driver
reference is non-null, but whose driver's `database_release` slot is unset,
is torn down with zero release calls and no panic — the claim, whose only
do-nothing condition for non-Driver handles is a null driver reference,
asserts that teardown would call the release function exactly once here. -/
theorem teardown_missing_slot_counterexample :
    FFI_AdbcDatabase.drop { private_data := 1, private_driver := 1 }
        (some { FFI_AdbcDriver.empty with database_release := none })
      = { calls := 0, status := none, panicked := false } :=
  rfl

/-- C4 (amended): for every handle type, teardown does nothing when the
driver reference is null or when the matching release slot (for Driver, its
own release slot) is unset; otherwise it calls the matching release
function exactly once, on the handle and a freshly created error slot, and
panics (aborts) exactly when the returned status is not `Ok`. -/
theorem teardown_release_protocol (db : FFI_AdbcDatabase)
    (conn : FFI_AdbcConnection) (stmt : FFI_AdbcStatement)
    (d1 d2 : FFI_AdbcDriver) (selfPtr : Nat) :
    FFI_AdbcDatabase.drop db none
      = { calls := 0, status := none, panicked := false } ∧
    FFI_AdbcConnection.drop conn none
      = { calls := 0, status := none, panicked := false } ∧
    FFI_AdbcStatement.drop stmt none
      = { calls := 0, status := none, panicked := false } ∧
    (d1.database_release = none → FFI_AdbcDatabase.drop db (some d1)
      = { calls := 0, status := none, panicked := false }) ∧
    (d1.connection_release = none → FFI_AdbcConnection.drop conn (some d1)
      = { calls := 0, status := none, panicked := false }) ∧
    (d1.statement_release = none → FFI_AdbcStatement.drop stmt (some d1)
      = { calls := 0, status := none, panicked := false }) ∧
    (d1.release = none → FFI_AdbcDriver.drop d1 selfPtr
      = { calls := 0, status := none, panicked := false }) ∧
    (∀ f, d2.database_release = some f → FFI_AdbcDatabase.drop db (some d2)
      = { calls := 1, status := some (f db FFI_AdbcError.empty).1,
          panicked := decide ((f db FFI_AdbcError.empty).1 ≠ AdbcStatusCode.Ok) }) ∧
    (∀ f, d2.connection_release = some f → FFI_AdbcConnection.drop conn (some d2)
      = { calls := 1, status := some (f conn FFI_AdbcError.empty).1,
          panicked := decide ((f conn FFI_AdbcError.empty).1 ≠ AdbcStatusCode.Ok) }) ∧
    (∀ f, d2.statement_release = some f → FFI_AdbcStatement.drop stmt (some d2)
      = { calls := 1, status := some (f stmt FFI_AdbcError.empty).1,
          panicked := decide ((f stmt FFI_AdbcError.empty).1 ≠ AdbcStatusCode.Ok) }) ∧
    (∀ f, d2.release = some f → FFI_AdbcDriver.drop d2 selfPtr
      = { calls := 1, status := some (f selfPtr FFI_AdbcError.empty).1,
          panicked := decide ((f selfPtr FFI_AdbcError.empty).1 ≠ AdbcStatusCode.Ok) }) := by
  refine ⟨rfl, rfl, rfl, ?_, ?_, ?_, ?_, ?_, ?_, ?_, ?_⟩ <;>
    first
    | (intro h; simp only [FFI_AdbcDatabase.drop, FFI_AdbcConnection.drop,
        FFI_AdbcStatement.drop, FFI_AdbcDriver.drop, h])
    | (intro f h; simp only [FFI_AdbcDatabase.drop, FFI_AdbcConnection.drop,
        FFI_AdbcStatement.drop, FFI_AdbcDriver.drop, h])

/-- Witness for C4 at concrete inputs: handles with address `1`, a driver
with every release slot unset, and the fully-stubbed driver (whose own
release slot is bound to a function returning `Ok`); the stubbed slots
return `NotImplemented`, so those teardowns panic. -/
theorem teardown_release_protocol_witness :
    FFI_AdbcDatabase.drop { private_data := 1, private_driver := 1 } none
      = { calls := 0, status := none, panicked := false } ∧
    FFI_AdbcDatabase.drop { private_data := 1, private_driver := 1 }
        (some { FFI_AdbcDriver.empty with
                  database_release := none
                  connection_release := none
                  statement_release := none })
      = { calls := 0, status := none, panicked := false } ∧
    FFI_AdbcDatabase.drop { private_data := 1, private_driver := 1 }
        (some { FFI_AdbcDriver.empty with
                  release := some fun _ e => (AdbcStatusCode.Ok, e) })
      = { calls := 1, status := some AdbcStatusCode.NotImplemented,
          panicked := true } ∧
    FFI_AdbcConnection.drop { private_data := 1, private_driver := 1 }
        (some { FFI_AdbcDriver.empty with
                  release := some fun _ e => (AdbcStatusCode.Ok, e) })
      = { calls := 1, status := some AdbcStatusCode.NotImplemented,
          panicked := true } ∧
    FFI_AdbcStatement.drop { private_data := 1, private_driver := 1 }
        (some { FFI_AdbcDriver.empty with
                  release := some fun _ e => (AdbcStatusCode.Ok, e) })
      = { calls := 1, status := some AdbcStatusCode.NotImplemented,
          panicked := true } ∧
    FFI_AdbcDriver.drop
        { FFI_AdbcDriver.empty with
            release := some fun _ e => (AdbcStatusCode.Ok, e) } 7
      = { calls := 1, status := some AdbcStatusCode.Ok, panicked := false } := by
  have h := teardown_release_protocol
    { private_data := 1, private_driver := 1 }
    { private_data := 1, private_driver := 1 }
    { private_data := 1, private_driver := 1 }
    { FFI_AdbcDriver.empty with
        database_release := none
        connection_release := none
        statement_release := none }
    { FFI_AdbcDriver.empty with
        release := some fun _ e => (AdbcStatusCode.Ok, e) } 7
  exact ⟨h.1, h.2.2.2.1 rfl,
    h.2.2.2.2.2.2.2.1 driver_function_stubs.database_release rfl,
    h.2.2.2.2.2.2.2.2.1 driver_function_stubs.connection_release rfl,
    h.2.2.2.2.2.2.2.2.2.1 driver_function_stubs.statement_release rfl,
    h.2.2.2.2.2.2.2.2.2.2 (fun _ e => (AdbcStatusCode.Ok, e)) rfl⟩

/-- C6: calling `get_param_schema` on a statement that is not in the
`Prepared` state (i.e. before `prepare` has succeeded) fails with an
`InvalidState` error. -/
theorem get_param_schema_requires_prepared (s : SpecStatement)
    (h : s.state ≠ StatementState.Prepared) :
    s.get_param_schema = Except.error AdbcStatusCode.InvalidState := by
  unfold SpecStatement.get_param_schema
  cases hs : s.state with
  | Prepared => exact absurd hs h
  | Unprepared => rfl
  | QueryConfigured => rfl

/-- Witness for C6 at a concrete statement in the `QueryConfigured` state
(query set, `prepare` not yet run). -/
theorem get_param_schema_requires_prepared_witness :
    SpecStatement.get_param_schema
      { state := StatementState.QueryConfigured
        query := some (QuerySpec.sql "SELECT 1")
        paramSchema := { tag := 0 }
        execResult := { result := none, rows_affected := -1 } }
      = Except.error AdbcStatusCode.InvalidState :=
  get_param_schema_requires_prepared
    { state := StatementState.QueryConfigured
      query := some (QuerySpec.sql "SELECT 1")
      paramSchema := { tag := 0 }
      execResult := { result := none, rows_affected := -1 } }
    (by decide)

/-- C7: on any statement whose query was configured via `set_sql_query`,
`execute()` succeeds without `prepare()` having been called, returning the
driver's optional result row-stream and rows-affected count, and
`execute_update()` is the variant returning only that affected-row
count. -/
theorem execute_without_prepare (s : SpecStatement) (q : String) :
    (s.set_sql_query q).execute = Except.ok s.execResult ∧
    (s.set_sql_query q).execute_update = Except.ok s.execResult.rows_affected :=
  ⟨rfl, rfl⟩

/-- C8: re-invoking `set_sql_query` (or `set_substrait_plan`) on a
statement in the `Prepared` state resets it to `QueryConfigured` and
invalidates the prior preparation: `get_param_schema` fails with
`InvalidState` again until `prepare` is re-run, after which it succeeds
once more. -/
theorem requery_resets_preparation (s : SpecStatement) (q : String)
    (plan : List Nat) (h : s.state = StatementState.Prepared) :
    (s.set_sql_query q).state = StatementState.QueryConfigured ∧
    (s.set_sql_query q).get_param_schema
      = Except.error AdbcStatusCode.InvalidState ∧
    (s.set_sql_query q).prepare
      = Except.ok { s.set_sql_query q with state := StatementState.Prepared } ∧
    SpecStatement.get_param_schema
        { s.set_sql_query q with state := StatementState.Prepared }
      = Except.ok s.paramSchema ∧
    (s.set_substrait_plan plan).state = StatementState.QueryConfigured ∧
    (s.set_substrait_plan plan).get_param_schema
      = Except.error AdbcStatusCode.InvalidState :=
  ⟨rfl, rfl, rfl, rfl, rfl, rfl⟩

/-- Witness for C8 at a concrete prepared statement. -/
theorem requery_resets_preparation_witness :
    (SpecStatement.set_sql_query
        { state := StatementState.Prepared
          query := some (QuerySpec.sql "SELECT 1")
          paramSchema := { tag := 3 }
          execResult := { result := some 1, rows_affected := 2 } } "SELECT 2").state
      = StatementState.QueryConfigured ∧
    (SpecStatement.set_sql_query
        { state := StatementState.Prepared
          query := some (QuerySpec.sql "SELECT 1")
          paramSchema := { tag := 3 }
          execResult := { result := some 1, rows_affected := 2 } } "SELECT 2").get_param_schema
      = Except.error AdbcStatusCode.InvalidState ∧
    (SpecStatement.set_sql_query
        { state := StatementState.Prepared
          query := some (QuerySpec.sql "SELECT 1")
          paramSchema := { tag := 3 }
          execResult := { result := some 1, rows_affected := 2 } } "SELECT 2").prepare
      = Except.ok
          { SpecStatement.set_sql_query
              { state := StatementState.Prepared
                query := some (QuerySpec.sql "SELECT 1")
                paramSchema := { tag := 3 }
                execResult := { result := some 1, rows_affected := 2 } } "SELECT 2" with
              state := StatementState.Prepared } ∧
    SpecStatement.get_param_schema
        { SpecStatement.set_sql_query
            { state := StatementState.Prepared
              query := some (QuerySpec.sql "SELECT 1")
              paramSchema := { tag := 3 }
              execResult := { result := some 1, rows_affected := 2 } } "SELECT 2" with
            state := StatementState.Prepared }
      = Except.ok { tag := 3 } ∧
    (SpecStatement.set_substrait_plan
        { state := StatementState.Prepared
          query := some (QuerySpec.sql "SELECT 1")
          paramSchema := { tag := 3 }
          execResult := { result := some 1, rows_affected := 2 } } [1, 2]).state
      = StatementState.QueryConfigured ∧
    (SpecStatement.set_substrait_plan
        { state := StatementState.Prepared
          query := some (QuerySpec.sql "SELECT 1")
          paramSchema := { tag := 3 }
          execResult := { result := some 1, rows_affected := 2 } } [1, 2]).get_param_schema
      = Except.error AdbcStatusCode.InvalidState :=
  requery_resets_preparation
    { state := StatementState.Prepared
      query := some (QuerySpec.sql "SELECT 1")
      paramSchema := { tag := 3 }
      execResult := { result := some 1, rows_affected := 2 } }
    "SELECT 2" [1, 2] rfl
